import Mathlib

/-!
Verification of the duty-scheduler logic of `beaconrunner`
(`beaconrunner/validators/ASAPValidator.py`) against its design
specification.

The three entry points `attest`, `sync_committees` and `propose` are
embedded as pure functions over an explicit validator state.  The guard
logic is translated directly from `ASAPValidator.py`.  The parts of the
repository that the entry points delegate to (`validatorlib`'s honest
artifact producers, and the recording of the `last_slot_*`
slashing-protection fields) are not part of the repository's visible
files; those parts are modelled from the specification and are marked as
such in their doc comments.
-/

namespace Beaconrunner

/-- The validator's view of the time source: `store.time` and
`store.genesis_time`, as read by `ASAPValidator.attest` and
`ASAPValidator.sync_committees`. -/
structure Store where
  time : Nat
  genesis_time : Nat
deriving DecidableEq

/-- The per-validator duty state read and written by the scheduler,
mirroring the `self.data` fields used by `ASAPValidator`.  The
`last_slot_*` fields are the slashing-protection memory (`none` =
never discharged). -/
structure ValidatorData where
  slot : Nat
  current_attest_slot : Nat
  current_sync_committee : List (Nat × Nat)
  current_proposer_duties : List Bool
  received_block : Bool
  last_slot_attested : Option Nat
  last_slot_sync_committee : Option Nat
  last_slot_proposed : Option Nat
deriving DecidableEq

/-- A validator instance: its duty data and its store (time view),
mirroring `self.data` and `self.store` of `BRValidator`. -/
structure BRValidator where
  data : ValidatorData
  store : Store
deriving DecidableEq

/-- Modelled from the spec: the error taxonomy's `ProducerFailure` — the
delegated artifact producer could not construct a valid artifact. -/
inductive ProducerFailure where
  | fail
deriving DecidableEq

/-- Modelled from the spec: the errors a scheduling call can surface —
`producerFailure` (the artifact producer failed) and `invalidState`
(guard preconditions contradict each other, e.g. the proposer-duty
lookup is out of range; in the Python source this is an uncaught
`IndexError`). -/
inductive SchedulerError where
  | producerFailure
  | invalidState
deriving DecidableEq

/-- Equality of call results is decidable, so every claim can be
evaluated on explicit inputs. -/
instance {ε α : Type} [DecidableEq ε] [DecidableEq α] : DecidableEq (Except ε α) :=
  fun x y =>
    match x, y with
    | .ok a, .ok b =>
        if h : a = b then isTrue (by rw [h])
        else isFalse (by intro he; cases he; exact h rfl)
    | .ok _, .error _ => isFalse (fun h => Except.noConfusion h)
    | .error _, .ok _ => isFalse (fun h => Except.noConfusion h)
    | .error e, .error f =>
        if h : e = f then isTrue (by rw [h])
        else isFalse (by intro he; cases he; exact h rfl)

/-- Modelled from the spec: an artifact producer (`honest_attest`,
`honest_sync_committee`, `honest_propose` live in `validatorlib`,
outside the repository's visible files).  It reads the validator state
and the `known_items` bag and either returns a fully-formed artifact or
fails. -/
abbrev Producer (κ α : Type) := BRValidator → κ → Except ProducerFailure α

/-- A sync-committee bundle: `(sync_committee_index,
sync_subcommittee_index, signature)`, with the signature content
abstract. -/
abbrev SyncCommitteeBundle (σ : Type) := Nat × Nat × σ

/-- Modelled from the spec: the network-configuration constant
`SECONDS_PER_SLOT` consumed (not owned) by this core; the spec's
examples fix it to 12. -/
def SECONDS_PER_SLOT : Nat := 12

/-- Modelled from the spec: the network-configuration constant
`SLOTS_PER_EPOCH` consumed (not owned) by this core; 32 on the network
configuration the repository imports. -/
def SLOTS_PER_EPOCH : Nat := 32

/-- Modelled from the spec: the single state mutation of a successful
attest decision, `last_slot_attested := current_slot`. -/
def setLastAttested (v : BRValidator) : BRValidator :=
  { v with data := { v.data with last_slot_attested := some v.data.slot } }

/-- Modelled from the spec: the single state mutation of a successful
sync-committee decision, `last_slot_sync_committee := current_slot`. -/
def setLastSyncCommittee (v : BRValidator) : BRValidator :=
  { v with data := { v.data with last_slot_sync_committee := some v.data.slot } }

/-- Modelled from the spec: the single state mutation of a successful
propose decision, `last_slot_proposed := current_slot`. -/
def setLastProposed (v : BRValidator) : BRValidator :=
  { v with data := { v.data with last_slot_proposed := some v.data.slot } }

/-- `ASAPValidator.attest`: guard order and the literal early-slot
threshold `time_in_slot < 4` are translated directly from the source.
The recording of `last_slot_attested` on success and the propagation of
a producer failure are modelled from the spec (the producer lives
outside the repository's visible files).  The call returns its result
(or error) together with the validator state after the call. -/
def attest {κ α : Type} (SECONDS_PER_SLOT : Nat) (honest_attest : Producer κ α)
    (v : BRValidator) (known_items : κ) :
    Except SchedulerError (Option α) × BRValidator :=
  if v.data.current_attest_slot ≠ v.data.slot then (.ok none, v)
  else
    let time_in_slot := (v.store.time - v.store.genesis_time) % SECONDS_PER_SLOT
    if v.data.received_block = false ∧ time_in_slot < 4 then (.ok none, v)
    else if v.data.last_slot_attested = some v.data.slot then (.ok none, v)
    else
      match honest_attest v known_items with
      | .error _ => (.error .producerFailure, v)
      | .ok a => (.ok (some a), setLastAttested v)

/-- `ASAPValidator.sync_committees`: guard order (membership, timing
with the literal threshold `time_in_slot < 4`, slashing guard) is
translated directly from the source; the success mutation and failure
propagation are modelled from the spec as in `attest`. -/
def sync_committees {κ β : Type} (SECONDS_PER_SLOT : Nat)
    (honest_sync_committee : Producer κ (List β))
    (v : BRValidator) (known_items : κ) :
    Except SchedulerError (Option (List β)) × BRValidator :=
  if v.data.current_sync_committee.length = 0 then (.ok none, v)
  else
    let time_in_slot := (v.store.time - v.store.genesis_time) % SECONDS_PER_SLOT
    if v.data.received_block = false ∧ time_in_slot < 4 then (.ok none, v)
    else if v.data.last_slot_sync_committee = some v.data.slot then (.ok none, v)
    else
      match honest_sync_committee v known_items with
      | .error _ => (.error .producerFailure, v)
      | .ok bs => (.ok (some bs), setLastSyncCommittee v)

/-- `ASAPValidator.propose`: the duty lookup
`current_proposer_duties[slot % SLOTS_PER_EPOCH]` and the two guards are
translated directly from the source; an out-of-range lookup is the
Python `IndexError`, modelled as the spec's `InvalidState` error.  The
success mutation and failure propagation are modelled from the spec as
in `attest`.  There is no time-in-slot gate. -/
def propose {κ γ : Type} (SLOTS_PER_EPOCH : Nat) (honest_propose : Producer κ γ)
    (v : BRValidator) (known_items : κ) :
    Except SchedulerError (Option γ) × BRValidator :=
  match v.data.current_proposer_duties[v.data.slot % SLOTS_PER_EPOCH]? with
  | none => (.error .invalidState, v)
  | some duty =>
    if duty = false then (.ok none, v)
    else if v.data.last_slot_proposed = some v.data.slot then (.ok none, v)
    else
      match honest_propose v known_items with
      | .error _ => (.error .producerFailure, v)
      | .ok b => (.ok (some b), setLastProposed v)

/-- Modelled from the spec: the honest sync-committee producer returns
one bundle per `(committee index, subcommittee index)` the validator is
assigned to, the signing of each bundle being delegated to an abstract
`sign`. -/
def honest_sync_committee {κ σ : Type} (sign : BRValidator → κ → Nat × Nat → σ)
    (v : BRValidator) (known_items : κ) :
    Except ProducerFailure (List (SyncCommitteeBundle σ)) :=
  .ok (v.data.current_sync_committee.map (fun a => (a.1, a.2, sign v known_items a)))

/-- The spec's wording of the attest decision (§4.1): the same three
guards, with the early-slot threshold written as
`SECONDS_PER_SLOT / 3`. -/
def decide_attest_spec {κ α : Type} (SECONDS_PER_SLOT : Nat) (producer : Producer κ α)
    (v : BRValidator) (known_items : κ) :
    Except SchedulerError (Option α) × BRValidator :=
  if v.data.current_attest_slot ≠ v.data.slot then (.ok none, v)
  else
    let time_in_slot := (v.store.time - v.store.genesis_time) % SECONDS_PER_SLOT
    if v.data.received_block = false ∧ time_in_slot < SECONDS_PER_SLOT / 3 then (.ok none, v)
    else if v.data.last_slot_attested = some v.data.slot then (.ok none, v)
    else
      match producer v known_items with
      | .error _ => (.error .producerFailure, v)
      | .ok a => (.ok (some a), setLastAttested v)

/-- The spec's wording of the sync-committee decision (§4.2): guard (1)
is the membership check, the early-slot threshold is
`SECONDS_PER_SLOT / 3`, and on success the produced sequence holds one
bundle per assignment. -/
def decide_sync_committee_spec {κ σ : Type} (SECONDS_PER_SLOT : Nat)
    (sign : BRValidator → κ → Nat × Nat → σ)
    (v : BRValidator) (known_items : κ) :
    Except SchedulerError (Option (List (SyncCommitteeBundle σ))) × BRValidator :=
  if v.data.current_sync_committee = [] then (.ok none, v)
  else
    let time_in_slot := (v.store.time - v.store.genesis_time) % SECONDS_PER_SLOT
    if v.data.received_block = false ∧ time_in_slot < SECONDS_PER_SLOT / 3 then (.ok none, v)
    else if v.data.last_slot_sync_committee = some v.data.slot then (.ok none, v)
    else
      (.ok (some (v.data.current_sync_committee.map
        (fun a => (a.1, a.2, sign v known_items a)))), setLastSyncCommittee v)

/-- Overwriting the fields the propose decision is claimed not to depend
on: `store.time`, `store.genesis_time` and `received_block`. -/
def updTiming (v : BRValidator) (t g : Nat) (rb : Bool) : BRValidator :=
  { v with store := { time := t, genesis_time := g },
           data := { v.data with received_block := rb } }

section Helpers

variable {κ α β γ σ : Type}

/-- Exhaustive description of one `attest` call: it declines leaving the
state unchanged, propagates a producer failure leaving the state
unchanged, or returns the produced artifact having recorded
`last_slot_attested`. -/
lemma attest_cases (SPS : Nat) (p : Producer κ α) (v : BRValidator) (k : κ) :
    attest SPS p v k = (.ok none, v) ∨
    ((∃ e, p v k = .error e) ∧ attest SPS p v k = (.error .producerFailure, v)) ∨
    (∃ a, p v k = .ok a ∧ v.data.last_slot_attested ≠ some v.data.slot ∧
      attest SPS p v k = (.ok (some a), setLastAttested v)) := by
  by_cases h1 : v.data.current_attest_slot ≠ v.data.slot
  · exact Or.inl (by simp [attest, h1])
  · by_cases h2 : v.data.received_block = false ∧
        (v.store.time - v.store.genesis_time) % SPS < 4
    · exact Or.inl (by simp [attest, h1, h2])
    · by_cases h3 : v.data.last_slot_attested = some v.data.slot
      · exact Or.inl (by simp [attest, h1, h2, h3])
      · cases hp : p v k with
        | error e =>
            exact Or.inr (Or.inl ⟨⟨e, rfl⟩, by simp [attest, h1, h2, h3, hp]⟩)
        | ok a =>
            exact Or.inr (Or.inr ⟨a, rfl, h3, by simp [attest, h1, h2, h3, hp]⟩)

/-- Exhaustive description of one `sync_committees` call. -/
lemma sync_committees_cases (SPS : Nat) (p : Producer κ (List β))
    (v : BRValidator) (k : κ) :
    sync_committees SPS p v k = (.ok none, v) ∨
    ((∃ e, p v k = .error e) ∧ sync_committees SPS p v k = (.error .producerFailure, v)) ∨
    (∃ bs, p v k = .ok bs ∧ v.data.last_slot_sync_committee ≠ some v.data.slot ∧
      sync_committees SPS p v k = (.ok (some bs), setLastSyncCommittee v)) := by
  by_cases h1 : v.data.current_sync_committee.length = 0
  · exact Or.inl (by simp [sync_committees, h1])
  · by_cases h2 : v.data.received_block = false ∧
        (v.store.time - v.store.genesis_time) % SPS < 4
    · exact Or.inl (by simp [sync_committees, h1, h2])
    · by_cases h3 : v.data.last_slot_sync_committee = some v.data.slot
      · exact Or.inl (by simp [sync_committees, h1, h2, h3])
      · cases hp : p v k with
        | error e =>
            exact Or.inr (Or.inl ⟨⟨e, rfl⟩, by simp [sync_committees, h1, h2, h3, hp]⟩)
        | ok bs =>
            exact Or.inr (Or.inr ⟨bs, rfl, h3, by simp [sync_committees, h1, h2, h3, hp]⟩)

/-- Exhaustive description of one `propose` call, including the
out-of-range duty lookup. -/
lemma propose_cases (SPE : Nat) (p : Producer κ γ) (v : BRValidator) (k : κ) :
    (v.data.current_proposer_duties[v.data.slot % SPE]? = none ∧
      propose SPE p v k = (.error .invalidState, v)) ∨
    propose SPE p v k = (.ok none, v) ∨
    ((∃ e, p v k = .error e) ∧ propose SPE p v k = (.error .producerFailure, v)) ∨
    (∃ b, p v k = .ok b ∧
      v.data.current_proposer_duties[v.data.slot % SPE]? = some true ∧
      v.data.last_slot_proposed ≠ some v.data.slot ∧
      propose SPE p v k = (.ok (some b), setLastProposed v)) := by
  cases hd : v.data.current_proposer_duties[v.data.slot % SPE]? with
  | none => exact Or.inl ⟨rfl, by simp [propose, hd]⟩
  | some duty =>
    by_cases h1 : duty = false
    · exact Or.inr (Or.inl (by simp [propose, hd, h1]))
    · have hdt : duty = true := by revert h1; cases duty <;> simp
      by_cases h2 : v.data.last_slot_proposed = some v.data.slot
      · exact Or.inr (Or.inl (by simp [propose, hd, h1, h2]))
      · cases hp : p v k with
        | error e =>
            exact Or.inr (Or.inr (Or.inl ⟨⟨e, rfl⟩, by simp [propose, hd, h1, h2, hp]⟩))
        | ok b =>
            exact Or.inr (Or.inr (Or.inr ⟨b, rfl, by rw [hdt], h2,
              by simp [propose, hd, h1, h2, hp]⟩))

/-- Once the slashing-protection memory records the current slot, an
attest call declines and leaves the state unchanged. -/
lemma attest_none_of_recorded (SPS : Nat) (p : Producer κ α) (v : BRValidator) (k : κ)
    (h : v.data.last_slot_attested = some v.data.slot) :
    attest SPS p v k = (.ok none, v) := by
  rcases attest_cases SPS p v k with h1 | ⟨_, _⟩ | ⟨a, _, hne, _⟩
  · exact h1
  · simp [attest, h]
  · exact absurd h hne

/-- Once the slashing-protection memory records the current slot, a
sync-committee call declines and leaves the state unchanged. -/
lemma sync_committees_none_of_recorded (SPS : Nat) (p : Producer κ (List β))
    (v : BRValidator) (k : κ)
    (h : v.data.last_slot_sync_committee = some v.data.slot) :
    sync_committees SPS p v k = (.ok none, v) := by
  rcases sync_committees_cases SPS p v k with h1 | ⟨_, _⟩ | ⟨bs, _, hne, _⟩
  · exact h1
  · simp [sync_committees, h]
  · exact absurd h hne

/-- Once the slashing-protection memory records the current slot and the
duty lookup is in range, a propose call declines and leaves the state
unchanged. -/
lemma propose_none_of_recorded (SPE : Nat) (p : Producer κ γ) (v : BRValidator) (k : κ)
    (d : Bool)
    (hd : v.data.current_proposer_duties[v.data.slot % SPE]? = some d)
    (h : v.data.last_slot_proposed = some v.data.slot) :
    propose SPE p v k = (.ok none, v) := by
  by_cases h1 : d = false
  · simp [propose, hd, h1]
  · simp [propose, hd, h1, h]

end Helpers

/-! Concrete states and producers used to evaluate the entry points on
explicit inputs. -/

/-- A producer that always succeeds with the artifact `0`. -/
def okNatProducer : Producer Unit Nat := fun _ _ => .ok 0

/-- A producer of bundle lists that always succeeds with `[0]`. -/
def okListProducer : Producer Unit (List Nat) := fun _ _ => .ok [0]

/-- A producer that always fails. -/
def failingProducer {κ α : Type} : Producer κ α := fun _ _ => .error .fail

/-- A validator at slot 5 that is eligible for all three duties: it is
its attesting slot, a block was received, it is a sync-committee member,
the proposer-duty entry for slot 5 is set, and no duty has been
discharged yet. -/
def vEligible : BRValidator :=
  { data := { slot := 5, current_attest_slot := 5,
              current_sync_committee := [(0, 1), (0, 2)],
              current_proposer_duties := [false, false, false, false, false, true],
              received_block := true,
              last_slot_attested := none,
              last_slot_sync_committee := none,
              last_slot_proposed := none },
    store := { time := 60, genesis_time := 0 } }

/-- Eligible validator whose slashing-protection memory records slot 7,
a slot strictly greater than its current slot 5. -/
def vStale : BRValidator :=
  { data := { slot := 5, current_attest_slot := 5,
              current_sync_committee := [(0, 1)],
              current_proposer_duties := [false, false, false, false, false, true],
              received_block := true,
              last_slot_attested := some 7,
              last_slot_sync_committee := some 7,
              last_slot_proposed := some 7 },
    store := { time := 60, genesis_time := 0 } }

/-- An eligible validator, no block received, 5 seconds into its slot. -/
def vFifthSecond : BRValidator :=
  { data := { slot := 5, current_attest_slot := 5,
              current_sync_committee := [(0, 1)],
              current_proposer_duties := [false, false, false, false, false, true],
              received_block := false,
              last_slot_attested := none,
              last_slot_sync_committee := none,
              last_slot_proposed := none },
    store := { time := 5, genesis_time := 0 } }

/-- An eligible validator, no block received, 2 seconds into its slot. -/
def vSecondSecond : BRValidator :=
  { data := { slot := 5, current_attest_slot := 5,
              current_sync_committee := [(0, 1)],
              current_proposer_duties := [false, false, false, false, false, true],
              received_block := false,
              last_slot_attested := none,
              last_slot_sync_committee := none,
              last_slot_proposed := none },
    store := { time := 62, genesis_time := 0 } }

/-- A validator whose proposer-duty sequence has length 1, shorter than
`SLOTS_PER_EPOCH`, at a slot whose index still falls inside it. -/
def vShortDuties : BRValidator :=
  { data := { slot := 0, current_attest_slot := 3,
              current_sync_committee := [],
              current_proposer_duties := [false],
              received_block := true,
              last_slot_attested := none,
              last_slot_sync_committee := none,
              last_slot_proposed := none },
    store := { time := 0, genesis_time := 0 } }

/-- A validator at slot 5 whose proposer-duty sequence has the full
epoch length. -/
def vFullDuties : BRValidator :=
  { data := { slot := 5, current_attest_slot := 5,
              current_sync_committee := [],
              current_proposer_duties := List.replicate 32 false,
              received_block := true,
              last_slot_attested := none,
              last_slot_sync_committee := none,
              last_slot_proposed := none },
    store := { time := 60, genesis_time := 0 } }

/-! ## The claims -/

/-- C2.  Side-effect contract: every call to `attest`
(resp. `sync_committees`, `propose`) either returns `None` or fails with
the state bit-for-bit unchanged, or returns an artifact with exactly the
one mutation `last_slot_attested := current_slot`
(resp. `last_slot_sync_committee`, `last_slot_proposed`); there is no
state mutation on any `None`-returning path. -/
theorem scheduler_side_effect_contract {κ α β γ : Type} (SPS SPE : Nat)
    (pa : Producer κ α) (ps : Producer κ (List β)) (pp : Producer κ γ)
    (v : BRValidator) (k : κ) :
    (attest SPS pa v k = (.ok none, v) ∨
      attest SPS pa v k = (.error .producerFailure, v) ∨
      (∃ a, v.data.last_slot_attested ≠ some v.data.slot ∧
        attest SPS pa v k = (.ok (some a), setLastAttested v))) ∧
    (sync_committees SPS ps v k = (.ok none, v) ∨
      sync_committees SPS ps v k = (.error .producerFailure, v) ∨
      (∃ bs, v.data.last_slot_sync_committee ≠ some v.data.slot ∧
        sync_committees SPS ps v k = (.ok (some bs), setLastSyncCommittee v))) ∧
    (propose SPE pp v k = (.ok none, v) ∨
      propose SPE pp v k = (.error .producerFailure, v) ∨
      propose SPE pp v k = (.error .invalidState, v) ∨
      (∃ b, v.data.last_slot_proposed ≠ some v.data.slot ∧
        propose SPE pp v k = (.ok (some b), setLastProposed v))) := by
  refine ⟨?_, ?_, ?_⟩
  · rcases attest_cases SPS pa v k with h | ⟨_, h⟩ | ⟨a, _, hne, h⟩
    · exact Or.inl h
    · exact Or.inr (Or.inl h)
    · exact Or.inr (Or.inr ⟨a, hne, h⟩)
  · rcases sync_committees_cases SPS ps v k with h | ⟨_, h⟩ | ⟨bs, _, hne, h⟩
    · exact Or.inl h
    · exact Or.inr (Or.inl h)
    · exact Or.inr (Or.inr ⟨bs, hne, h⟩)
  · rcases propose_cases SPE pp v k with ⟨_, h⟩ | h | ⟨_, h⟩ | ⟨b, _, _, hne, h⟩
    · exact Or.inr (Or.inr (Or.inl h))
    · exact Or.inl h
    · exact Or.inr (Or.inl h)
    · exact Or.inr (Or.inr (Or.inr ⟨b, hne, h⟩))

/-- C3.  At the configured `SECONDS_PER_SLOT` (12, at which the source's
literal threshold 4 equals `SECONDS_PER_SLOT / 3`), `attest` is exactly
the spec's three-guard decision: `None` when it is not the attesting
slot, then `None` when no block was received and less than a third of
the slot has elapsed, then `None` when the slot is already recorded in
`last_slot_attested`, and otherwise the producer's attestation. -/
theorem attest_guard_characterization {κ α : Type} (pa : Producer κ α)
    (v : BRValidator) (k : κ) :
    attest SECONDS_PER_SLOT pa v k = decide_attest_spec SECONDS_PER_SLOT pa v k := rfl

/-- C10.  The slashing guards compare for equality only: a validator
whose slashing-protection memory records slot 7, strictly greater than
its current slot 5, still produces an artifact from all three entry
points when the other guards pass. -/
theorem equality_only_slashing_guard :
    vStale.data.slot = 5 ∧
    vStale.data.last_slot_attested = some 7 ∧ 5 < 7 ∧
    (attest 12 okNatProducer vStale ()).1 = .ok (some 0) ∧
    vStale.data.last_slot_sync_committee = some 7 ∧
    (sync_committees 12 okListProducer vStale ()).1 = .ok (some [0]) ∧
    vStale.data.last_slot_proposed = some 7 ∧
    (propose 32 okNatProducer vStale ()).1 = .ok (some 0) := by
  decide

/-- C4 (counterexample).  With `SECONDS_PER_SLOT = 30`, at
`time_in_slot = 5 < 30 / 3`, no block received and all other guards
passing, `attest` still returns an attestation and `sync_committees`
still returns bundles: the early-slot cutoff of the code is the literal
4, not `SECONDS_PER_SLOT / 3`. -/
theorem timing_gate_counterexample :
    vFifthSecond.data.received_block = false ∧
    (vFifthSecond.store.time - vFifthSecond.store.genesis_time) % 30 < 30 / 3 ∧
    (attest 30 okNatProducer vFifthSecond ()).1 = .ok (some 0) ∧
    (attest 30 okNatProducer vFifthSecond ()).1 ≠ .ok none ∧
    (sync_committees 30 okListProducer vFifthSecond ()).1 = .ok (some [0]) ∧
    (sync_committees 30 okListProducer vFifthSecond ()).1 ≠ .ok none := by
  decide

/-- C4 (amended).  Timing gate with the source's literal threshold: for
every configured `SECONDS_PER_SLOT`, if no block was received and
`time_in_slot = (store_time - genesis_time) % SECONDS_PER_SLOT` is
strictly below 4 seconds — which equals `SECONDS_PER_SLOT / 3` at the
default configuration of 12 — then `attest` and `sync_committees`
return `None` regardless of duty assignment. -/
theorem timing_gate_fixed_threshold {κ α β : Type} (SPS : Nat)
    (pa : Producer κ α) (ps : Producer κ (List β)) (v : BRValidator) (k : κ)
    (hrb : v.data.received_block = false)
    (ht : (v.store.time - v.store.genesis_time) % SPS < 4) :
    attest SPS pa v k = (.ok none, v) ∧
    sync_committees SPS ps v k = (.ok none, v) := by
  constructor
  · by_cases h1 : v.data.current_attest_slot ≠ v.data.slot
    · simp [attest, h1]
    · simp [attest, h1, hrb, ht]
  · by_cases h1 : v.data.current_sync_committee.length = 0
    · simp [sync_committees, h1]
    · simp [sync_committees, h1, hrb, ht]

/-- C4 (witness): two seconds into slot 5 with no block received, both
timed entry points decline. -/
theorem timing_gate_fixed_threshold_witness :
    attest 12 okNatProducer vSecondSecond () = (.ok none, vSecondSecond) ∧
    sync_committees 12 okListProducer vSecondSecond () = (.ok none, vSecondSecond) :=
  timing_gate_fixed_threshold 12 okNatProducer okListProducer vSecondSecond ()
    rfl (by decide)

/-- C1.  At-most-once per slot: once a call to `attest`
(resp. `sync_committees`, `propose`) has returned an artifact, any later
call of the same entry point in the same slot — on any state that keeps
the slot and carries the slashing-protection field forward (and, for
`propose`, the slot's duty sequence) — returns `None` and leaves the
state unchanged. -/
theorem at_most_once_per_slot {κ α β γ : Type} (SPS SPE : Nat)
    (pa pa' : Producer κ α) (ps ps' : Producer κ (List β)) (pp pp' : Producer κ γ)
    (v w : BRValidator) (k k' : κ) :
    ((∃ a, (attest SPS pa v k).1 = .ok (some a)) → w.data.slot = v.data.slot →
      w.data.last_slot_attested = ((attest SPS pa v k).2).data.last_slot_attested →
      attest SPS pa' w k' = (.ok none, w)) ∧
    ((∃ bs, (sync_committees SPS ps v k).1 = .ok (some bs)) →
      w.data.slot = v.data.slot →
      w.data.last_slot_sync_committee =
        ((sync_committees SPS ps v k).2).data.last_slot_sync_committee →
      sync_committees SPS ps' w k' = (.ok none, w)) ∧
    ((∃ b, (propose SPE pp v k).1 = .ok (some b)) → w.data.slot = v.data.slot →
      w.data.current_proposer_duties = v.data.current_proposer_duties →
      w.data.last_slot_proposed = ((propose SPE pp v k).2).data.last_slot_proposed →
      propose SPE pp' w k' = (.ok none, w)) := by
  refine ⟨?_, ?_, ?_⟩
  · rintro ⟨a, hres⟩ hslot hlast
    rcases attest_cases SPS pa v k with h | ⟨_, h⟩ | ⟨a', _, _, h⟩
    · rw [h] at hres; cases hres
    · rw [h] at hres; cases hres
    · have hw : w.data.last_slot_attested = some w.data.slot := by
        rw [hlast, h]; simp [setLastAttested, hslot]
      exact attest_none_of_recorded SPS pa' w k' hw
  · rintro ⟨bs, hres⟩ hslot hlast
    rcases sync_committees_cases SPS ps v k with h | ⟨_, h⟩ | ⟨bs', _, _, h⟩
    · rw [h] at hres; cases hres
    · rw [h] at hres; cases hres
    · have hw : w.data.last_slot_sync_committee = some w.data.slot := by
        rw [hlast, h]; simp [setLastSyncCommittee, hslot]
      exact sync_committees_none_of_recorded SPS ps' w k' hw
  · rintro ⟨b, hres⟩ hslot hduties hlast
    rcases propose_cases SPE pp v k with ⟨_, h⟩ | h | ⟨_, h⟩ | ⟨b', _, hdt, _, h⟩
    · rw [h] at hres; cases hres
    · rw [h] at hres; cases hres
    · rw [h] at hres; cases hres
    · have hwd : w.data.current_proposer_duties[w.data.slot % SPE]? = some true := by
        rw [hduties, hslot]; exact hdt
      have hw : w.data.last_slot_proposed = some w.data.slot := by
        rw [hlast, h]; simp [setLastProposed, hslot]
      exact propose_none_of_recorded SPE pp' w k' true hwd hw

/-- C1 (witness): after a successful call at slot 5, the repeat call of
each entry point declines and leaves the state unchanged. -/
theorem at_most_once_per_slot_witness :
    attest 12 okNatProducer (setLastAttested vEligible) () =
      (.ok none, setLastAttested vEligible) ∧
    sync_committees 12 okListProducer (setLastSyncCommittee vEligible) () =
      (.ok none, setLastSyncCommittee vEligible) ∧
    propose 32 okNatProducer (setLastProposed vEligible) () =
      (.ok none, setLastProposed vEligible) := by
  refine ⟨?_, ?_, ?_⟩
  · exact (at_most_once_per_slot 12 32 okNatProducer okNatProducer okListProducer
      okListProducer okNatProducer okNatProducer vEligible (setLastAttested vEligible)
      () ()).1 ⟨0, rfl⟩ rfl rfl
  · exact (at_most_once_per_slot 12 32 okNatProducer okNatProducer okListProducer
      okListProducer okNatProducer okNatProducer vEligible
      (setLastSyncCommittee vEligible) () ()).2.1 ⟨[0], rfl⟩ rfl rfl
  · exact (at_most_once_per_slot 12 32 okNatProducer okNatProducer okListProducer
      okListProducer okNatProducer okNatProducer vEligible
      (setLastProposed vEligible) () ()).2.2 ⟨0, rfl⟩ rfl rfl rfl

/-- C5.  Propose decision: with the duty entry at
`current_slot % SLOTS_PER_EPOCH` in range, `propose` returns `None`
exactly when that entry is false or `last_slot_proposed` records the
current slot; when the entry is set and the slot is unrecorded it
returns whatever the producer returns; and the whole call is
independent of `received_block`, `store_time` and `genesis_time`
whenever the producer is. -/
theorem propose_characterization {κ γ : Type} (SPE : Nat) (pp : Producer κ γ)
    (v : BRValidator) (k : κ) :
    (∀ d, v.data.current_proposer_duties[v.data.slot % SPE]? = some d →
      ((propose SPE pp v k).1 = .ok none ↔
        d = false ∨ v.data.last_slot_proposed = some v.data.slot)) ∧
    (v.data.current_proposer_duties[v.data.slot % SPE]? = some true →
      v.data.last_slot_proposed ≠ some v.data.slot →
      propose SPE pp v k =
        (match pp v k with
          | .error _ => (.error .producerFailure, v)
          | .ok b => (.ok (some b), setLastProposed v))) ∧
    (∀ t g rb, pp (updTiming v t g rb) k = pp v k →
      propose SPE pp (updTiming v t g rb) k =
        ((propose SPE pp v k).1, updTiming (propose SPE pp v k).2 t g rb)) := by
  refine ⟨?_, ?_, ?_⟩
  · intro d hd
    cases d with
    | false => simp [propose, hd]
    | true =>
      by_cases h2 : v.data.last_slot_proposed = some v.data.slot
      · simp [propose, hd, h2]
      · cases hp : pp v k with
        | error e => simp [propose, hd, h2, hp]
        | ok b => simp [propose, hd, h2, hp]
  · intro hd h2
    simp [propose, hd, h2]
  · intro t g rb hfr
    simp only [updTiming] at hfr
    cases hd : v.data.current_proposer_duties[v.data.slot % SPE]? with
    | none => simp [propose, updTiming, hd]
    | some duty =>
      by_cases h1 : duty = false
      · simp [propose, updTiming, hd, h1]
      · by_cases h2 : v.data.last_slot_proposed = some v.data.slot
        · simp [propose, updTiming, hd, h1, h2]
        · cases hp : pp v k with
          | error e => simp [propose, updTiming, setLastProposed, hd, h1, h2, hfr, hp]
          | ok b => simp [propose, updTiming, setLastProposed, hd, h1, h2, hfr, hp]

/-- C5 (witness): at slot 5 with its duty entry set and nothing
recorded, the proposer emits the produced block and records the slot. -/
theorem propose_characterization_witness :
    propose 32 okNatProducer vEligible () = (.ok (some 0), setLastProposed vEligible) :=
  (propose_characterization 32 okNatProducer vEligible ()).2.1 (by decide) (by decide)

/-- C6.  At the configured `SECONDS_PER_SLOT`, the sync-committee
decision with the honest producer is exactly the spec's decision: the
same three-guard structure as the attest decision with the duty guard
replaced by the membership check, and on success one bundle per assigned
`(committee index, subcommittee index)`. -/
theorem sync_committee_guard_characterization {κ σ : Type}
    (sign : BRValidator → κ → Nat × Nat → σ) (v : BRValidator) (k : κ) :
    sync_committees SECONDS_PER_SLOT (honest_sync_committee sign) v k =
      decide_sync_committee_spec SECONDS_PER_SLOT sign v k := by
  simp only [sync_committees, decide_sync_committee_spec, honest_sync_committee,
    SECONDS_PER_SLOT]
  norm_num [List.length_eq_zero]

/-- C7.  Producer failure is atomic: when the artifact producers fail,
each entry point leaves the validator state — in particular all three
`last_slot_*` fields — bit-for-bit unchanged, and the caller sees either
the propagated producer failure or a `None` from an earlier guard, never
an artifact. -/
theorem producer_failure_atomicity {κ α β γ : Type} (SPS SPE : Nat)
    (pa : Producer κ α) (ps : Producer κ (List β)) (pp : Producer κ γ)
    (v : BRValidator) (k : κ) (ea es ep : ProducerFailure)
    (ha : pa v k = .error ea) (hs : ps v k = .error es) (hp : pp v k = .error ep) :
    (attest SPS pa v k).2 = v ∧ (sync_committees SPS ps v k).2 = v ∧
    (propose SPE pp v k).2 = v ∧
    ((attest SPS pa v k).1 = .error .producerFailure ∨
      (attest SPS pa v k).1 = .ok none) ∧
    ((sync_committees SPS ps v k).1 = .error .producerFailure ∨
      (sync_committees SPS ps v k).1 = .ok none) ∧
    ((propose SPE pp v k).1 = .error .producerFailure ∨
      (propose SPE pp v k).1 = .ok none ∨
      (propose SPE pp v k).1 = .error .invalidState) := by
  have hA : attest SPS pa v k = (.ok none, v) ∨
      attest SPS pa v k = (.error .producerFailure, v) := by
    rcases attest_cases SPS pa v k with h | ⟨_, h⟩ | ⟨a, hok, _, _⟩
    · exact Or.inl h
    · exact Or.inr h
    · rw [ha] at hok; cases hok
  have hS : sync_committees SPS ps v k = (.ok none, v) ∨
      sync_committees SPS ps v k = (.error .producerFailure, v) := by
    rcases sync_committees_cases SPS ps v k with h | ⟨_, h⟩ | ⟨bs, hok, _, _⟩
    · exact Or.inl h
    · exact Or.inr h
    · rw [hs] at hok; cases hok
  have hP : propose SPE pp v k = (.ok none, v) ∨
      propose SPE pp v k = (.error .producerFailure, v) ∨
      propose SPE pp v k = (.error .invalidState, v) := by
    rcases propose_cases SPE pp v k with ⟨_, h⟩ | h | ⟨_, h⟩ | ⟨b, hok, _, _, _⟩
    · exact Or.inr (Or.inr h)
    · exact Or.inl h
    · exact Or.inr (Or.inl h)
    · rw [hp] at hok; cases hok
  refine ⟨?_, ?_, ?_, ?_, ?_, ?_⟩
  · rcases hA with h | h <;> rw [h]
  · rcases hS with h | h <;> rw [h]
  · rcases hP with h | h | h <;> rw [h]
  · rcases hA with h | h <;> rw [h] <;> simp
  · rcases hS with h | h <;> rw [h] <;> simp
  · rcases hP with h | h | h <;> rw [h] <;> simp

/-- C7 (witness): with all three producers failing on an otherwise fully
eligible validator, every entry point surfaces the failure and the state
is unchanged. -/
theorem producer_failure_atomicity_witness :
    (attest 12 (failingProducer : Producer Unit Nat) vEligible ()).2 = vEligible ∧
    (sync_committees 12 (failingProducer : Producer Unit (List Nat)) vEligible ()).2 =
      vEligible ∧
    (propose 32 (failingProducer : Producer Unit Nat) vEligible ()).2 = vEligible ∧
    ((attest 12 (failingProducer : Producer Unit Nat) vEligible ()).1 =
        .error .producerFailure ∨
      (attest 12 (failingProducer : Producer Unit Nat) vEligible ()).1 = .ok none) ∧
    ((sync_committees 12 (failingProducer : Producer Unit (List Nat)) vEligible ()).1 =
        .error .producerFailure ∨
      (sync_committees 12 (failingProducer : Producer Unit (List Nat)) vEligible ()).1 =
        .ok none) ∧
    ((propose 32 (failingProducer : Producer Unit Nat) vEligible ()).1 =
        .error .producerFailure ∨
      (propose 32 (failingProducer : Producer Unit Nat) vEligible ()).1 = .ok none ∨
      (propose 32 (failingProducer : Producer Unit Nat) vEligible ()).1 =
        .error .invalidState) :=
  producer_failure_atomicity 12 32 failingProducer failingProducer failingProducer
    vEligible () .fail .fail .fail rfl rfl rfl

/-- C8 (counterexample): a proposer-duty sequence of length 1, shorter
than `SLOTS_PER_EPOCH = 32`, at a slot whose index falls inside it: the
call does not abort, it silently returns the decision `None`. -/
theorem proposer_duty_lookup_counterexample :
    vShortDuties.data.current_proposer_duties.length < 32 ∧
    propose 32 okNatProducer vShortDuties () = (.ok none, vShortDuties) ∧
    (propose 32 okNatProducer vShortDuties ()).1 ≠ .error .invalidState := by
  decide

/-- C8 (amended).  When `current_proposer_duties` has length
`SLOTS_PER_EPOCH > 0`, the index `current_slot % SLOTS_PER_EPOCH` is in
bounds and the out-of-range branch is unreachable; and whenever the
index does fall outside the sequence (possible only when the sequence is
shorter than `SLOTS_PER_EPOCH`), the call aborts with the loud
`InvalidState` error for that tick instead of silently returning a
decision. -/
theorem proposer_duty_lookup_safety {κ γ : Type} (SPE : Nat) (pp : Producer κ γ)
    (v : BRValidator) (k : κ)
    (h1 : v.data.current_proposer_duties.length = SPE) (h2 : 0 < SPE) :
    v.data.slot % SPE < v.data.current_proposer_duties.length ∧
    (propose SPE pp v k).1 ≠ .error .invalidState ∧
    (∀ w : BRValidator, w.data.current_proposer_duties.length ≤ w.data.slot % SPE →
      propose SPE pp w k = (.error .invalidState, w)) := by
  have hin : v.data.slot % SPE < v.data.current_proposer_duties.length := by
    rw [h1]; exact Nat.mod_lt _ h2
  refine ⟨hin, ?_, ?_⟩
  · have hd : v.data.current_proposer_duties[v.data.slot % SPE]? =
        some (v.data.current_proposer_duties[v.data.slot % SPE]) :=
      List.getElem?_eq_getElem hin
    rcases propose_cases SPE pp v k with ⟨hn, _⟩ | h | ⟨_, h⟩ | ⟨b, _, _, _, h⟩
    · rw [hd] at hn; cases hn
    · rw [h]; simp
    · rw [h]; simp
    · rw [h]; simp
  · intro w hw
    have hn : w.data.current_proposer_duties[w.data.slot % SPE]? = none :=
      List.getElem?_eq_none hw
    simp [propose, hn]

/-- C8 (witness): with a full-length duty sequence the index for slot 5
is in bounds and the call never reports `InvalidState`. -/
theorem proposer_duty_lookup_safety_witness :
    vFullDuties.data.slot % 32 < vFullDuties.data.current_proposer_duties.length ∧
    (propose 32 okNatProducer vFullDuties ()).1 ≠ .error .invalidState ∧
    (∀ w : BRValidator, w.data.current_proposer_duties.length ≤ w.data.slot % 32 →
      propose 32 okNatProducer w () = (.error .invalidState, w)) :=
  proposer_duty_lookup_safety 32 okNatProducer vFullDuties () (by decide) (by decide)

/-! ## Order independence of the three entry points (C9) -/

/-- The two slashing-protection updates touch different fields, so they
commute. -/
lemma setLastAttested_setLastSyncCommittee (v : BRValidator) :
    setLastAttested (setLastSyncCommittee v) =
      setLastSyncCommittee (setLastAttested v) := rfl

/-- The two slashing-protection updates touch different fields, so they
commute. -/
lemma setLastAttested_setLastProposed (v : BRValidator) :
    setLastAttested (setLastProposed v) = setLastProposed (setLastAttested v) := rfl

/-- The two slashing-protection updates touch different fields, so they
commute. -/
lemma setLastSyncCommittee_setLastProposed (v : BRValidator) :
    setLastSyncCommittee (setLastProposed v) =
      setLastProposed (setLastSyncCommittee v) := rfl

/-- `attest` neither reads nor writes `last_slot_sync_committee`: its
behaviour on a state with that field overwritten is its behaviour on the
original state, with the overwrite carried along. -/
lemma attest_frame_sync (SPS : Nat) {κ α : Type} (p : Producer κ α)
    (w : BRValidator) (k : κ)
    (hfr : p (setLastSyncCommittee w) k = p w k) :
    attest SPS p (setLastSyncCommittee w) k =
      ((attest SPS p w k).1, setLastSyncCommittee (attest SPS p w k).2) := by
  simp only [setLastSyncCommittee] at hfr
  by_cases h1 : w.data.current_attest_slot ≠ w.data.slot
  · simp [attest, setLastSyncCommittee, h1]
  · by_cases h2 : w.data.received_block = false ∧
        (w.store.time - w.store.genesis_time) % SPS < 4
    · simp [attest, setLastSyncCommittee, h1, h2]
    · by_cases h3 : w.data.last_slot_attested = some w.data.slot
      · simp [attest, setLastSyncCommittee, h1, h2, h3]
      · cases hp : p w k with
        | error e => simp [attest, setLastSyncCommittee, h1, h2, h3, hp, hfr]
        | ok a =>
            simp [attest, setLastSyncCommittee, setLastAttested, h1, h2, h3, hp, hfr]

/-- `attest` neither reads nor writes `last_slot_proposed`. -/
lemma attest_frame_proposed (SPS : Nat) {κ α : Type} (p : Producer κ α)
    (w : BRValidator) (k : κ)
    (hfr : p (setLastProposed w) k = p w k) :
    attest SPS p (setLastProposed w) k =
      ((attest SPS p w k).1, setLastProposed (attest SPS p w k).2) := by
  simp only [setLastProposed] at hfr
  by_cases h1 : w.data.current_attest_slot ≠ w.data.slot
  · simp [attest, setLastProposed, h1]
  · by_cases h2 : w.data.received_block = false ∧
        (w.store.time - w.store.genesis_time) % SPS < 4
    · simp [attest, setLastProposed, h1, h2]
    · by_cases h3 : w.data.last_slot_attested = some w.data.slot
      · simp [attest, setLastProposed, h1, h2, h3]
      · cases hp : p w k with
        | error e => simp [attest, setLastProposed, h1, h2, h3, hp, hfr]
        | ok a =>
            simp [attest, setLastProposed, setLastAttested, h1, h2, h3, hp, hfr]

/-- `sync_committees` neither reads nor writes `last_slot_attested`. -/
lemma sync_committees_frame_attested (SPS : Nat) {κ β : Type}
    (p : Producer κ (List β)) (w : BRValidator) (k : κ)
    (hfr : p (setLastAttested w) k = p w k) :
    sync_committees SPS p (setLastAttested w) k =
      ((sync_committees SPS p w k).1, setLastAttested (sync_committees SPS p w k).2) := by
  simp only [setLastAttested] at hfr
  by_cases h1 : w.data.current_sync_committee.length = 0
  · simp [sync_committees, setLastAttested, h1]
  · by_cases h2 : w.data.received_block = false ∧
        (w.store.time - w.store.genesis_time) % SPS < 4
    · simp [sync_committees, setLastAttested, h1, h2]
    · by_cases h3 : w.data.last_slot_sync_committee = some w.data.slot
      · simp [sync_committees, setLastAttested, h1, h2, h3]
      · cases hp : p w k with
        | error e => simp [sync_committees, setLastAttested, h1, h2, h3, hp, hfr]
        | ok bs =>
            simp [sync_committees, setLastAttested, setLastSyncCommittee,
              h1, h2, h3, hp, hfr]

/-- `sync_committees` neither reads nor writes `last_slot_proposed`. -/
lemma sync_committees_frame_proposed (SPS : Nat) {κ β : Type}
    (p : Producer κ (List β)) (w : BRValidator) (k : κ)
    (hfr : p (setLastProposed w) k = p w k) :
    sync_committees SPS p (setLastProposed w) k =
      ((sync_committees SPS p w k).1, setLastProposed (sync_committees SPS p w k).2) := by
  simp only [setLastProposed] at hfr
  by_cases h1 : w.data.current_sync_committee.length = 0
  · simp [sync_committees, setLastProposed, h1]
  · by_cases h2 : w.data.received_block = false ∧
        (w.store.time - w.store.genesis_time) % SPS < 4
    · simp [sync_committees, setLastProposed, h1, h2]
    · by_cases h3 : w.data.last_slot_sync_committee = some w.data.slot
      · simp [sync_committees, setLastProposed, h1, h2, h3]
      · cases hp : p w k with
        | error e => simp [sync_committees, setLastProposed, h1, h2, h3, hp, hfr]
        | ok bs =>
            simp [sync_committees, setLastProposed, setLastSyncCommittee,
              h1, h2, h3, hp, hfr]

/-- `propose` neither reads nor writes `last_slot_attested`. -/
lemma propose_frame_attested (SPE : Nat) {κ γ : Type} (p : Producer κ γ)
    (w : BRValidator) (k : κ)
    (hfr : p (setLastAttested w) k = p w k) :
    propose SPE p (setLastAttested w) k =
      ((propose SPE p w k).1, setLastAttested (propose SPE p w k).2) := by
  simp only [setLastAttested] at hfr
  cases hd : w.data.current_proposer_duties[w.data.slot % SPE]? with
  | none => simp [propose, setLastAttested, hd]
  | some duty =>
    by_cases h1 : duty = false
    · simp [propose, setLastAttested, hd, h1]
    · by_cases h2 : w.data.last_slot_proposed = some w.data.slot
      · simp [propose, setLastAttested, hd, h1, h2]
      · cases hp : p w k with
        | error e => simp [propose, setLastAttested, hd, h1, h2, hp, hfr]
        | ok b => simp [propose, setLastAttested, setLastProposed, hd, h1, h2, hp, hfr]

/-- `propose` neither reads nor writes `last_slot_sync_committee`. -/
lemma propose_frame_sync (SPE : Nat) {κ γ : Type} (p : Producer κ γ)
    (w : BRValidator) (k : κ)
    (hfr : p (setLastSyncCommittee w) k = p w k) :
    propose SPE p (setLastSyncCommittee w) k =
      ((propose SPE p w k).1, setLastSyncCommittee (propose SPE p w k).2) := by
  simp only [setLastSyncCommittee] at hfr
  cases hd : w.data.current_proposer_duties[w.data.slot % SPE]? with
  | none => simp [propose, setLastSyncCommittee, hd]
  | some duty =>
    by_cases h1 : duty = false
    · simp [propose, setLastSyncCommittee, hd, h1]
    · by_cases h2 : w.data.last_slot_proposed = some w.data.slot
      · simp [propose, setLastSyncCommittee, hd, h1, h2]
      · cases hp : p w k with
        | error e => simp [propose, setLastSyncCommittee, hd, h1, h2, hp, hfr]
        | ok b =>
            simp [propose, setLastSyncCommittee, setLastProposed, hd, h1, h2, hp, hfr]

/-- Swapping an adjacent `attest`/`sync_committees` pair preserves both
results and the final state. -/
lemma attest_sync_swap (SPS : Nat) {κ α β : Type} (pa : Producer κ α)
    (ps : Producer κ (List β)) (v : BRValidator) (k : κ)
    (haS : ∀ u, pa (setLastSyncCommittee u) k = pa u k)
    (hsA : ∀ u, ps (setLastAttested u) k = ps u k) :
    (attest SPS pa v k).1 = (attest SPS pa (sync_committees SPS ps v k).2 k).1 ∧
    (sync_committees SPS ps (attest SPS pa v k).2 k).1 =
      (sync_committees SPS ps v k).1 ∧
    (sync_committees SPS ps (attest SPS pa v k).2 k).2 =
      (attest SPS pa (sync_committees SPS ps v k).2 k).2 := by
  have hA2 : (attest SPS pa v k).2 = v ∨
      (attest SPS pa v k).2 = setLastAttested v := by
    rcases attest_cases SPS pa v k with h | ⟨_, h⟩ | ⟨a, _, _, h⟩
    · exact Or.inl (by rw [h])
    · exact Or.inl (by rw [h])
    · exact Or.inr (by rw [h])
  have hS2 : (sync_committees SPS ps v k).2 = v ∨
      (sync_committees SPS ps v k).2 = setLastSyncCommittee v := by
    rcases sync_committees_cases SPS ps v k with h | ⟨_, h⟩ | ⟨bs, _, _, h⟩
    · exact Or.inl (by rw [h])
    · exact Or.inl (by rw [h])
    · exact Or.inr (by rw [h])
  rcases hA2 with ha2 | ha2 <;> rcases hS2 with hs2 | hs2 <;>
    simp [ha2, hs2, attest_frame_sync SPS pa v k (haS v),
      sync_committees_frame_attested SPS ps v k (hsA v),
      setLastAttested_setLastSyncCommittee]

/-- Swapping an adjacent `attest`/`propose` pair preserves both results
and the final state. -/
lemma attest_propose_swap (SPS SPE : Nat) {κ α γ : Type} (pa : Producer κ α)
    (pp : Producer κ γ) (v : BRValidator) (k : κ)
    (haP : ∀ u, pa (setLastProposed u) k = pa u k)
    (hpA : ∀ u, pp (setLastAttested u) k = pp u k) :
    (attest SPS pa v k).1 = (attest SPS pa (propose SPE pp v k).2 k).1 ∧
    (propose SPE pp (attest SPS pa v k).2 k).1 = (propose SPE pp v k).1 ∧
    (propose SPE pp (attest SPS pa v k).2 k).2 =
      (attest SPS pa (propose SPE pp v k).2 k).2 := by
  have hA2 : (attest SPS pa v k).2 = v ∨
      (attest SPS pa v k).2 = setLastAttested v := by
    rcases attest_cases SPS pa v k with h | ⟨_, h⟩ | ⟨a, _, _, h⟩
    · exact Or.inl (by rw [h])
    · exact Or.inl (by rw [h])
    · exact Or.inr (by rw [h])
  have hP2 : (propose SPE pp v k).2 = v ∨
      (propose SPE pp v k).2 = setLastProposed v := by
    rcases propose_cases SPE pp v k with ⟨_, h⟩ | h | ⟨_, h⟩ | ⟨b, _, _, _, h⟩
    · exact Or.inl (by rw [h])
    · exact Or.inl (by rw [h])
    · exact Or.inl (by rw [h])
    · exact Or.inr (by rw [h])
  rcases hA2 with ha2 | ha2 <;> rcases hP2 with hp2 | hp2 <;>
    simp [ha2, hp2, attest_frame_proposed SPS pa v k (haP v),
      propose_frame_attested SPE pp v k (hpA v),
      setLastAttested_setLastProposed]

/-- Swapping an adjacent `sync_committees`/`propose` pair preserves both
results and the final state. -/
lemma sync_propose_swap (SPS SPE : Nat) {κ β γ : Type} (ps : Producer κ (List β))
    (pp : Producer κ γ) (v : BRValidator) (k : κ)
    (hsP : ∀ u, ps (setLastProposed u) k = ps u k)
    (hpS : ∀ u, pp (setLastSyncCommittee u) k = pp u k) :
    (sync_committees SPS ps v k).1 =
      (sync_committees SPS ps (propose SPE pp v k).2 k).1 ∧
    (propose SPE pp (sync_committees SPS ps v k).2 k).1 = (propose SPE pp v k).1 ∧
    (propose SPE pp (sync_committees SPS ps v k).2 k).2 =
      (sync_committees SPS ps (propose SPE pp v k).2 k).2 := by
  have hS2 : (sync_committees SPS ps v k).2 = v ∨
      (sync_committees SPS ps v k).2 = setLastSyncCommittee v := by
    rcases sync_committees_cases SPS ps v k with h | ⟨_, h⟩ | ⟨bs, _, _, h⟩
    · exact Or.inl (by rw [h])
    · exact Or.inl (by rw [h])
    · exact Or.inr (by rw [h])
  have hP2 : (propose SPE pp v k).2 = v ∨
      (propose SPE pp v k).2 = setLastProposed v := by
    rcases propose_cases SPE pp v k with ⟨_, h⟩ | h | ⟨_, h⟩ | ⟨b, _, _, _, h⟩
    · exact Or.inl (by rw [h])
    · exact Or.inl (by rw [h])
    · exact Or.inl (by rw [h])
    · exact Or.inr (by rw [h])
  rcases hS2 with hs2 | hs2 <;> rcases hP2 with hp2 | hp2 <;>
    simp [hs2, hp2, sync_committees_frame_proposed SPS ps v k (hsP v),
      propose_frame_sync SPE pp v k (hpS v),
      setLastSyncCommittee_setLastProposed]

/-- One scheduling tick calling the entry points in the order attest,
sync_committees, propose, returning the three results and the final
state. -/
def tickASP {κ α β γ : Type} (SPS SPE : Nat) (pa : Producer κ α)
    (ps : Producer κ (List β)) (pp : Producer κ γ) (v : BRValidator) (k : κ) :
    Except SchedulerError (Option α) × Except SchedulerError (Option (List β)) ×
      Except SchedulerError (Option γ) × BRValidator :=
  let a := attest SPS pa v k
  let s := sync_committees SPS ps a.2 k
  let p := propose SPE pp s.2 k
  (a.1, s.1, p.1, p.2)

/-- One tick in the order attest, propose, sync_committees. -/
def tickAPS {κ α β γ : Type} (SPS SPE : Nat) (pa : Producer κ α)
    (ps : Producer κ (List β)) (pp : Producer κ γ) (v : BRValidator) (k : κ) :
    Except SchedulerError (Option α) × Except SchedulerError (Option (List β)) ×
      Except SchedulerError (Option γ) × BRValidator :=
  let a := attest SPS pa v k
  let p := propose SPE pp a.2 k
  let s := sync_committees SPS ps p.2 k
  (a.1, s.1, p.1, s.2)

/-- One tick in the order sync_committees, attest, propose. -/
def tickSAP {κ α β γ : Type} (SPS SPE : Nat) (pa : Producer κ α)
    (ps : Producer κ (List β)) (pp : Producer κ γ) (v : BRValidator) (k : κ) :
    Except SchedulerError (Option α) × Except SchedulerError (Option (List β)) ×
      Except SchedulerError (Option γ) × BRValidator :=
  let s := sync_committees SPS ps v k
  let a := attest SPS pa s.2 k
  let p := propose SPE pp a.2 k
  (a.1, s.1, p.1, p.2)

/-- One tick in the order sync_committees, propose, attest. -/
def tickSPA {κ α β γ : Type} (SPS SPE : Nat) (pa : Producer κ α)
    (ps : Producer κ (List β)) (pp : Producer κ γ) (v : BRValidator) (k : κ) :
    Except SchedulerError (Option α) × Except SchedulerError (Option (List β)) ×
      Except SchedulerError (Option γ) × BRValidator :=
  let s := sync_committees SPS ps v k
  let p := propose SPE pp s.2 k
  let a := attest SPS pa p.2 k
  (a.1, s.1, p.1, a.2)

/-- One tick in the order propose, attest, sync_committees. -/
def tickPAS {κ α β γ : Type} (SPS SPE : Nat) (pa : Producer κ α)
    (ps : Producer κ (List β)) (pp : Producer κ γ) (v : BRValidator) (k : κ) :
    Except SchedulerError (Option α) × Except SchedulerError (Option (List β)) ×
      Except SchedulerError (Option γ) × BRValidator :=
  let p := propose SPE pp v k
  let a := attest SPS pa p.2 k
  let s := sync_committees SPS ps a.2 k
  (a.1, s.1, p.1, s.2)

/-- One tick in the order propose, sync_committees, attest. -/
def tickPSA {κ α β γ : Type} (SPS SPE : Nat) (pa : Producer κ α)
    (ps : Producer κ (List β)) (pp : Producer κ γ) (v : BRValidator) (k : κ) :
    Except SchedulerError (Option α) × Except SchedulerError (Option (List β)) ×
      Except SchedulerError (Option γ) × BRValidator :=
  let p := propose SPE pp v k
  let s := sync_committees SPS ps p.2 k
  let a := attest SPS pa s.2 k
  (a.1, s.1, p.1, a.2)

/-- C9.  Order independence: when the artifact producers do not read the
slashing-protection fields the other entry points write — each `∀ u`
hypothesis says one producer is unaffected by one of the other two
updates — invoking the three entry points once each within a tick
yields, in every one of the six orders, the same three results and the
same final validator state. -/
theorem entry_points_commute {κ α β γ : Type} (SPS SPE : Nat) (pa : Producer κ α)
    (ps : Producer κ (List β)) (pp : Producer κ γ) (v : BRValidator) (k : κ)
    (haS : ∀ u, pa (setLastSyncCommittee u) k = pa u k)
    (haP : ∀ u, pa (setLastProposed u) k = pa u k)
    (hsA : ∀ u, ps (setLastAttested u) k = ps u k)
    (hsP : ∀ u, ps (setLastProposed u) k = ps u k)
    (hpA : ∀ u, pp (setLastAttested u) k = pp u k)
    (hpS : ∀ u, pp (setLastSyncCommittee u) k = pp u k) :
    tickAPS SPS SPE pa ps pp v k = tickASP SPS SPE pa ps pp v k ∧
    tickSAP SPS SPE pa ps pp v k = tickASP SPS SPE pa ps pp v k ∧
    tickSPA SPS SPE pa ps pp v k = tickASP SPS SPE pa ps pp v k ∧
    tickPAS SPS SPE pa ps pp v k = tickASP SPS SPE pa ps pp v k ∧
    tickPSA SPS SPE pa ps pp v k = tickASP SPS SPE pa ps pp v k := by
  have eAPS : tickAPS SPS SPE pa ps pp v k = tickASP SPS SPE pa ps pp v k := by
    obtain ⟨e1, e2, e3⟩ :=
      sync_propose_swap SPS SPE ps pp (attest SPS pa v k).2 k hsP hpS
    simp only [tickAPS, tickASP]
    rw [← e1, ← e2, ← e3]
  have eSAP : tickSAP SPS SPE pa ps pp v k = tickASP SPS SPE pa ps pp v k := by
    obtain ⟨e1, e2, e3⟩ := attest_sync_swap SPS pa ps v k haS hsA
    simp only [tickSAP, tickASP]
    rw [← e1, ← e2, ← e3]
  have eSPA : tickSPA SPS SPE pa ps pp v k = tickSAP SPS SPE pa ps pp v k := by
    obtain ⟨e1, e2, e3⟩ :=
      attest_propose_swap SPS SPE pa pp (sync_committees SPS ps v k).2 k haP hpA
    simp only [tickSPA, tickSAP]
    rw [← e1, ← e2, e3]
  have ePAS : tickPAS SPS SPE pa ps pp v k = tickAPS SPS SPE pa ps pp v k := by
    obtain ⟨e1, e2, e3⟩ := attest_propose_swap SPS SPE pa pp v k haP hpA
    simp only [tickPAS, tickAPS]
    rw [← e1, ← e2, e3]
  have ePSA : tickPSA SPS SPE pa ps pp v k = tickPAS SPS SPE pa ps pp v k := by
    obtain ⟨e1, e2, e3⟩ :=
      attest_sync_swap SPS pa ps (propose SPE pp v k).2 k haS hsA
    simp only [tickPSA, tickPAS]
    rw [← e1, ← e2, e3]
  exact ⟨eAPS, eSAP, eSPA.trans eSAP, ePAS.trans eAPS,
    (ePSA.trans ePAS).trans eAPS⟩

/-- C9 (witness): with constant producers on a fully eligible validator,
all six call orders agree. -/
theorem entry_points_commute_witness :
    tickAPS 12 32 okNatProducer okListProducer okNatProducer vEligible () =
      tickASP 12 32 okNatProducer okListProducer okNatProducer vEligible () ∧
    tickSAP 12 32 okNatProducer okListProducer okNatProducer vEligible () =
      tickASP 12 32 okNatProducer okListProducer okNatProducer vEligible () ∧
    tickSPA 12 32 okNatProducer okListProducer okNatProducer vEligible () =
      tickASP 12 32 okNatProducer okListProducer okNatProducer vEligible () ∧
    tickPAS 12 32 okNatProducer okListProducer okNatProducer vEligible () =
      tickASP 12 32 okNatProducer okListProducer okNatProducer vEligible () ∧
    tickPSA 12 32 okNatProducer okListProducer okNatProducer vEligible () =
      tickASP 12 32 okNatProducer okListProducer okNatProducer vEligible () :=
  entry_points_commute 12 32 okNatProducer okListProducer okNatProducer vEligible ()
    (fun _ => rfl) (fun _ => rfl) (fun _ => rfl) (fun _ => rfl)
    (fun _ => rfl) (fun _ => rfl)

end Beaconrunner
